import Mathlib

/-!
Shallow embedding of the `strava` repository (files `src/strava/client.py`,
`src/strava/util.py`, `src/scripts/weekly.py`) and verification of its
specification.

Modelling conventions:
* `datetime` values are rational Unix timestamps (seconds); `timedelta`
  values are rational total-second counts.  Python's `timedelta.seconds`
  attribute (the sub-day seconds component of the normalized
  days/seconds/microseconds triple) is `timedeltaSeconds`.
* Python `int(...)` applied to a float truncates toward zero: `pyInt`.
* The two HTTP endpoints are passed in as functions: `respond` maps an
  activity-listing request (its query parameters) to the parsed page of
  activities, and `zonesOf` maps an activity id to the parsed list of
  zone-distribution blocks returned by the zones endpoint.
* The unbounded `while True` pagination loop is given explicit fuel.
* Python `sorted` with a key is a stable sort, modelled by `List.mergeSort`
  with the corresponding boolean comparison.
* Exceptions are modelled with `Except String`.
-/

/-- Python `int(q)` for a real (here rational) `q`: truncation toward zero. -/
def pyInt (q : ℚ) : ℤ := if 0 ≤ q then q.floor else -(-q).floor

/-- The `.seconds` attribute of a Python `timedelta` holding `t` total seconds:
the seconds component of the normalized (days, seconds, microseconds) triple,
i.e. the floor of the total seconds taken modulo one day (86400 s). -/
def timedeltaSeconds (t : ℚ) : ℤ := t.floor % 86400

/-- `class ActivityType(StrEnum)` from `client.py`. -/
inductive ActivityType where
  | RUN
  | WORKOUT
deriving DecidableEq

/-- Python `string.lower()`: lower-case the string character by character
(agreeing with Python on the ASCII inputs the program deals with). -/
def pyLower (s : String) : String := String.mk (s.data.map Char.toLower)

/-- `ActivityType.parse` from `client.py`: match on `string.lower()`,
raising `ValueError` on anything other than "run" / "workout". -/
def ActivityType.parse (string : String) : Except String ActivityType :=
  match pyLower string with
  | "run" => .ok ActivityType.RUN
  | "workout" => .ok ActivityType.WORKOUT
  | _ => .error ("unknown activity type '" ++ string ++ "'")

/-- `class Heartrate(BaseModel)` from `client.py`. -/
structure Heartrate where
  id : String := ""
  min : ℤ
  max : ℤ
  time : ℚ
deriving DecidableEq

/-- `class Activity(BaseModel)` from `client.py`. -/
structure Activity where
  id : ℤ
  name : String
  type : ActivityType
  start_datetime : ℚ
  duration : ℚ
  has_heartrate : Bool
  heartrate_data : List Heartrate := []
deriving DecidableEq

/-- `class DistributionBucket(BaseModel)` from `client.py`. -/
structure DistributionBucket where
  min : ℚ
  max : ℚ
  time : ℚ
deriving DecidableEq

/-- `class ZoneData(BaseModel)` from `client.py`. -/
structure ZoneData where
  type : String
  distribution_buckets : List DistributionBucket
deriving DecidableEq

/-- The query parameters of one GET against the activity-listing endpoint,
as assembled by `Strava._fetch_activites_page`. -/
structure ListRequest where
  per_page : Nat
  page : Nat
  after : ℚ
  before : ℚ
deriving DecidableEq

/-- The request record built by `Strava._fetch_activites_page`. -/
def mkReq (pp page : Nat) (b e : ℚ) : ListRequest :=
  { per_page := pp, page := page, after := b, before := e }

/-- The identifier string `f"z{i + 1}"` assigned to the bucket at index `i`. -/
def zid (i : Nat) : String := "z" ++ toString (i + 1)

/-- The `for i, hr in enumerate(...)` loop of
`Strava._enrich_activity_with_heartrate`: assign identifier `z(i+1)` to the
element at index `i`. -/
def assignIds (l : List Heartrate) : List Heartrate :=
  l.enum.map (fun p => { p.2 with id := zid p.1 })

/-- The body of the `case "heartrate"` branch of
`Strava._enrich_activity_with_heartrate`: coerce each raw bucket to a
`Heartrate`, sort ascending by minimum BPM (stable, as Python `sorted`),
and assign identifiers `z1..zN` in that order. -/
def convertBuckets (buckets : List DistributionBucket) : List Heartrate :=
  let raw : List Heartrate :=
    buckets.map (fun item =>
      { id := "", min := pyInt item.min, max := pyInt item.max, time := item.time })
  assignIds (raw.mergeSort (fun a b => decide (a.min ≤ b.min)))

namespace Strava

/-- One iteration of the `for data in parsed` loop of
`Strava._enrich_activity_with_heartrate`: a block whose type tag is
"heartrate" overwrites the activity's zone list, any other block is skipped. -/
def zoneStep (act : Activity) (data : ZoneData) : Activity :=
  if data.type = "heartrate" then
    { act with heartrate_data := convertBuckets data.distribution_buckets }
  else act

/-- `Strava._enrich_activity_with_heartrate` from `client.py`: reject an
activity whose `has_heartrate` flag is false, otherwise fold the zone-block
loop over the parsed response for the activity's id. -/
def enrich_activity_with_heartrate (zonesOf : ℤ → List ZoneData)
    (activity : Activity) : Except String Activity :=
  if activity.has_heartrate = false then
    .error "activity does not provide heartrate data"
  else
    .ok ((zonesOf activity.id).foldl zoneStep activity)

/-- The body of the list comprehension in `Strava.activities`: enrich an
activity exactly when its `has_heartrate` flag is true, pass it through
unchanged otherwise. -/
def enrichStep (zonesOf : ℤ → List ZoneData) (a : Activity) :
    Except String Activity :=
  if a.has_heartrate then enrich_activity_with_heartrate zonesOf a else .ok a

/-- The `while True` pagination loop of `Strava.activities`, with explicit
fuel: fetch the page, append it, stop as soon as a page holds fewer than
`per_page` elements, else continue with the next page number.  Returns the
accumulated activities together with the listing requests issued. -/
def fetchLoop (respond : ListRequest → List Activity) (b e : ℚ)
    (per_page : Nat) : Nat → Nat → List Activity × List ListRequest
  | 0, _ => ([], [])
  | fuel + 1, page =>
    let req := mkReq per_page page b e
    let next := respond req
    if next.length < per_page then (next, [req])
    else
      let rest := fetchLoop respond b e per_page fuel (page + 1)
      (next ++ rest.1, req :: rest.2)

/-- `Strava.activities` from `client.py`: paginate starting at page 1,
optionally enrich each heart-rate-capable activity, and return the result
sorted ascending by start time (a full stable re-sort).  Also returns the
listing requests issued. -/
def activities (respond : ListRequest → List Activity)
    (zonesOf : ℤ → List ZoneData) (fuel : Nat) (b e : ℚ) (per_page : Nat)
    (enrich_heartrate : Bool) :
    Except String (List Activity) × List ListRequest :=
  let fetched := fetchLoop respond b e per_page fuel 1
  let enriched : Except String (List Activity) :=
    if enrich_heartrate then fetched.1.mapM (enrichStep zonesOf)
    else .ok fetched.1
  (Except.map
      (fun l => l.mergeSort (fun x y => decide (x.start_datetime ≤ y.start_datetime)))
      enriched,
   fetched.2)

/-- Modelled from the spec: `Strava.week_beginning` is invoked by
`src/scripts/weekly.py` (`client.week_beginning(begin)`) but its definition
is absent from `src/strava/client.py`; the spec defines
`weekBeginning(ts) = fetchRange(ts, ts+7d, ...)`, i.e. fetch the activities
in the range from `ts` to `ts` plus seven days (604800 seconds). -/
def week_beginning (respond : ListRequest → List Activity)
    (zonesOf : ℤ → List ZoneData) (fuel : Nat) (ts : ℚ) (per_page : Nat)
    (enrich_heartrate : Bool) :
    Except String (List Activity) × List ListRequest :=
  activities respond zonesOf fuel ts (ts + 7 * 86400) per_page enrich_heartrate

end Strava

/-- `aggregate_hr` from `util.py`, as the mapping it builds: flatten every
activity's zone list; a key is present exactly when some record carries it,
and its value sums `hr.time.seconds / 60` over the records with that id. -/
def aggregate_hr (activities : List Activity) (k : String) : Option ℚ :=
  let data := (activities.map Activity.heartrate_data).flatten
  if data.any (fun hr => decide (hr.id = k)) then
    some (data.foldl
      (fun acc hr =>
        if hr.id = k then acc + (timedeltaSeconds hr.time : ℚ) / 60 else acc)
      0)
  else none

/-- `total_duration` from `util.py`: `sum(a.duration.seconds for a in
activities) / (60 * 60)`. -/
def total_duration (activities : List Activity) : ℚ :=
  (activities.foldl (fun s a => s + (timedeltaSeconds a.duration : ℚ)) 0) / (60 * 60)

/-- A minimal activity used in concrete scenarios: index `i` is its id and
its start time. -/
def mkActivity (i : Nat) : Activity :=
  { id := i, name := "a", type := ActivityType.RUN, start_datetime := i,
    duration := 0, has_heartrate := false, heartrate_data := [] }

/-- A listing endpoint serving pages of sizes 16, 16, 4 (the pagination
scenario of the spec). -/
def scenarioRespond (r : ListRequest) : List Activity :=
  if r.page = 1 then (List.range 16).map mkActivity
  else if r.page = 2 then (List.range 16).map (fun i => mkActivity (16 + i))
  else if r.page = 3 then (List.range 4).map (fun i => mkActivity (32 + i))
  else []

/-- A listing endpoint with no activities at all. -/
def emptyRespond : ListRequest → List Activity := fun _ => []

/-- A zones endpoint returning an empty response for every activity. -/
def noZones : ℤ → List ZoneData := fun _ => []

/-- Raw zone buckets arriving out of BPM order. -/
def c3Buckets : List DistributionBucket :=
  [{ min := 120, max := 150, time := 300 }, { min := 0, max := 120, time := 600 }]

/-- A zones endpoint returning one "heartrate" block with `c3Buckets`. -/
def c3Zones : ℤ → List ZoneData :=
  fun _ => [{ type := "heartrate", distribution_buckets := c3Buckets }]

/-- A heart-rate-capable activity with an empty zone list, as produced by
`Activity.parse`. -/
def c3Act : Activity :=
  { id := 7, name := "morning", type := ActivityType.RUN, start_datetime := 0,
    duration := 1800, has_heartrate := true, heartrate_data := [] }

/-- The result of enriching `c3Act` against `c3Zones`. -/
def c3Act' : Activity := { c3Act with heartrate_data := convertBuckets c3Buckets }

/-- An activity with a single 600-second zone record (identifier "z1"). -/
def c4Act : Activity :=
  { id := 1, name := "r", type := ActivityType.RUN, start_datetime := 0,
    duration := 600, has_heartrate := true,
    heartrate_data := [{ id := "z1", min := 100, max := 150, time := 600 }] }

/-- A zone record holding more than one day (90000 s) of time-in-zone. -/
def c4wHr : Heartrate := { id := "z1", min := 100, max := 150, time := 90000 }

/-- An activity carrying `c4wHr` as its only zone record. -/
def c4wAct : Activity :=
  { id := 3, name := "ultra", type := ActivityType.RUN, start_datetime := 0,
    duration := 90000, has_heartrate := true, heartrate_data := [c4wHr] }

/-- An activity lasting exactly one day (86400 s). -/
def c5Act : Activity :=
  { id := 2, name := "day", type := ActivityType.RUN, start_datetime := 0,
    duration := 86400, has_heartrate := false, heartrate_data := [] }

/-- An activity lasting 3661 seconds (one hour, one minute, one second). -/
def c5wAct : Activity :=
  { id := 4, name := "hour", type := ActivityType.WORKOUT, start_datetime := 0,
    duration := 3661, has_heartrate := false, heartrate_data := [] }

/-- An activity whose `has_heartrate` flag is false. -/
def c8Act : Activity :=
  { id := 5, name := "plain", type := ActivityType.WORKOUT, start_datetime := 0,
    duration := 60, has_heartrate := false, heartrate_data := [] }

/-- A heart-rate-capable activity with an empty zone list. -/
def c9Act : Activity :=
  { id := 6, name := "hr", type := ActivityType.RUN, start_datetime := 0,
    duration := 60, has_heartrate := true, heartrate_data := [] }

/-- A zones endpoint returning only a "power" block (no "heartrate" block). -/
def c9Zones : ℤ → List ZoneData :=
  fun _ => [{ type := "power",
              distribution_buckets := [{ min := 0, max := 100, time := 60 }] }]

/-- The first of two "heartrate" blocks in `c10Zones`. -/
def c10B1 : ZoneData :=
  { type := "heartrate",
    distribution_buckets := [{ min := 0, max := 110, time := 100 }] }

/-- The second of two "heartrate" blocks in `c10Zones`. -/
def c10B2 : ZoneData :=
  { type := "heartrate",
    distribution_buckets := [{ min := 110, max := 160, time := 200 }] }

/-- A zones endpoint returning two "heartrate" blocks. -/
def c10Zones : ℤ → List ZoneData := fun _ => [c10B1, c10B2]

/-- A heart-rate-capable activity used against `c10Zones`. -/
def c10Act : Activity :=
  { id := 8, name := "double", type := ActivityType.RUN, start_datetime := 0,
    duration := 900, has_heartrate := true, heartrate_data := [] }

/-- The computable `Rat.floor` agrees with the ambient `Int.floor`. -/
theorem ratFloor_eq_intFloor (q : ℚ) : Rat.floor q = ⌊q⌋ := by
  rw [Rat.floor_def', Rat.floor_def]

/-- Unfold `timedeltaSeconds` into `Int.floor` form. -/
theorem timedeltaSeconds_eq (t : ℚ) : timedeltaSeconds t = ⌊t⌋ % 86400 := by
  rw [timedeltaSeconds, ratFloor_eq_intFloor]

/-- For a duration below one day, the `.seconds` component is just the
floor of the total seconds. -/
theorem timedeltaSeconds_of_lt_day (t : ℚ) (h1 : 0 ≤ t) (h2 : t < 86400) :
    timedeltaSeconds t = ⌊t⌋ := by
  rw [timedeltaSeconds_eq]
  exact Int.emod_eq_of_lt (Int.floor_nonneg.mpr h1)
    (Int.floor_lt.mpr (by exact_mod_cast h2))

/-- The `.seconds` component is always below one day. -/
theorem timedeltaSeconds_lt_day (t : ℚ) : timedeltaSeconds t < 86400 := by
  rw [timedeltaSeconds_eq]
  exact Int.emod_lt_of_pos _ (by norm_num)

/-- Every request issued by the pagination loop carries the loop's page size
and the range bounds passed to it. -/
theorem fetchLoop_req_fields (respond : ListRequest → List Activity) (b e : ℚ)
    (pp : Nat) :
    ∀ (fuel page : Nat), ∀ r ∈ (Strava.fetchLoop respond b e pp fuel page).2,
      r.per_page = pp ∧ r.after = b ∧ r.before = e := by
  intro fuel
  induction fuel with
  | zero =>
    intro page r hr
    simp [Strava.fetchLoop] at hr
  | succ n ih =>
    intro page r hr
    simp only [Strava.fetchLoop] at hr
    by_cases h : (respond (mkReq pp page b e)).length < pp
    · rw [if_pos h] at hr
      simp at hr
      subst hr
      exact ⟨rfl, rfl, rfl⟩
    · rw [if_neg h] at hr
      simp at hr
      rcases hr with hr | hr
      · subst hr
        exact ⟨rfl, rfl, rfl⟩
      · exact ih (page + 1) r hr

/-- The guarded enrichment step never raises. -/
theorem enrichStep_ok (zonesOf : ℤ → List ZoneData) (a : Activity) :
    ∃ a', Strava.enrichStep zonesOf a = .ok a' := by
  unfold Strava.enrichStep Strava.enrich_activity_with_heartrate
  cases h : a.has_heartrate <;> simp [h]

/-- Mapping the guarded enrichment step over a list never raises and
preserves the length. -/
theorem mapM_enrichStep_ok (zonesOf : ℤ → List ZoneData) (l : List Activity) :
    ∃ l', l.mapM (Strava.enrichStep zonesOf) = .ok l' ∧ l'.length = l.length := by
  induction l with
  | nil => exact ⟨[], rfl, rfl⟩
  | cons a t ih =>
    obtain ⟨t', ht, hlen⟩ := ih
    obtain ⟨a', ha⟩ := enrichStep_ok zonesOf a
    refine ⟨a' :: t', ?_, by simp [hlen]⟩
    rw [List.mapM_cons, ha, ht]
    rfl

/-- The final re-sort of `Strava.activities` produces a list that is
pairwise ordered by start time. -/
theorem mergeSort_start_pairwise (l : List Activity) :
    (l.mergeSort (fun x y => decide (x.start_datetime ≤ y.start_datetime))).Pairwise
      (fun x y => x.start_datetime ≤ y.start_datetime) := by
  have h := @List.sorted_mergeSort Activity
    (fun x y => decide (x.start_datetime ≤ y.start_datetime))
    (fun a b c h1 h2 => by
      simp only [decide_eq_true_eq] at *
      exact le_trans h1 h2)
    (fun a b => by
      rcases le_total a.start_datetime b.start_datetime with h | h <;> simp [h]) l
  exact h.imp (fun hab => of_decide_eq_true hab)

/-- `Strava.activities` always succeeds; the result has as many elements as
the pagination loop collected, and is pairwise ordered by start time. -/
theorem activities_ok (respond : ListRequest → List Activity)
    (zonesOf : ℤ → List ZoneData) (fuel : Nat) (b e : ℚ) (pp : Nat)
    (eh : Bool) :
    ∃ l, (Strava.activities respond zonesOf fuel b e pp eh).1 = .ok l ∧
      l.length = (Strava.fetchLoop respond b e pp fuel 1).1.length ∧
      l.Pairwise (fun x y => x.start_datetime ≤ y.start_datetime) := by
  unfold Strava.activities
  cases eh with
  | false =>
    refine ⟨_, rfl, ?_, mergeSort_start_pairwise _⟩
    simp
  | true =>
    obtain ⟨l', hl, hlen⟩ :=
      mapM_enrichStep_ok zonesOf (Strava.fetchLoop respond b e pp fuel 1).1
    refine ⟨_, ?_, ?_, mergeSort_start_pairwise l'⟩
    · simp only [hl]
      rfl
    · simp [hlen]

/-- The requests returned by `Strava.activities` are those of its
pagination loop. -/
theorem activities_snd (respond : ListRequest → List Activity)
    (zonesOf : ℤ → List ZoneData) (fuel : Nat) (b e : ℚ) (pp : Nat)
    (eh : Bool) :
    (Strava.activities respond zonesOf fuel b e pp eh).2 =
      (Strava.fetchLoop respond b e pp fuel 1).2 := rfl

/-- C1: the fetch loop in `activities` issues a subsequent request for the
next page number if and only if the current page has exactly `per_page`
elements (given that the endpoint never returns more than `per_page`
elements per page); it stops immediately after the first short page; every
iteration with fuel issues the request for its page; and pages of sizes
[16, 16, 4] with `per_page = 16` yield 36 activities after exactly the three
requests for pages 1, 2, 3. -/
theorem activities_pagination :
    (∀ (respond : ListRequest → List Activity) (b e : ℚ) (pp fuel page : Nat),
       (respond (mkReq pp page b e)).length ≤ pp →
       Strava.fetchLoop respond b e pp (fuel + 1) page =
         (if (respond (mkReq pp page b e)).length = pp then
            (respond (mkReq pp page b e) ++
               (Strava.fetchLoop respond b e pp fuel (page + 1)).1,
             mkReq pp page b e ::
               (Strava.fetchLoop respond b e pp fuel (page + 1)).2)
          else (respond (mkReq pp page b e), [mkReq pp page b e]))) ∧
    (∀ (respond : ListRequest → List Activity) (b e : ℚ) (pp fuel page : Nat),
       ((Strava.fetchLoop respond b e pp (fuel + 1) page).2).head? =
         some (mkReq pp page b e)) ∧
    (Strava.fetchLoop scenarioRespond 0 1 16 10 1).1.length = 36 ∧
    (Strava.fetchLoop scenarioRespond 0 1 16 10 1).2.map ListRequest.page = [1, 2, 3] ∧
    (∃ l, (Strava.activities scenarioRespond noZones 10 0 1 16 true).1 = .ok l ∧
       l.length = 36) ∧
    (Strava.activities scenarioRespond noZones 10 0 1 16 true).2.map
      ListRequest.page = [1, 2, 3] := by
  refine ⟨?_, ?_, by decide, by decide, ?_, by decide⟩
  · intro respond b e pp fuel page h
    by_cases heq : (respond (mkReq pp page b e)).length = pp
    · rw [if_pos heq]
      simp only [Strava.fetchLoop]
      rw [if_neg (by omega)]
    · rw [if_neg heq]
      simp only [Strava.fetchLoop]
      rw [if_pos (by omega)]
  · intro respond b e pp fuel page
    simp only [Strava.fetchLoop]
    split <;> rfl
  · obtain ⟨l, h1, h2, _⟩ := activities_ok scenarioRespond noZones 10 0 1 16 true
    refine ⟨l, h1, ?_⟩
    rw [h2]
    decide

/-- Witness for C1: the first scenario page has at most 16 elements, and the
loop on it unfolds to the continuation equation of `activities_pagination`
(the page is full, so the request for page 2 follows). -/
theorem activities_pagination_witness :
    (scenarioRespond (mkReq 16 1 0 1)).length ≤ 16 ∧
    Strava.fetchLoop scenarioRespond 0 1 16 (9 + 1) 1 =
      (scenarioRespond (mkReq 16 1 0 1) ++
         (Strava.fetchLoop scenarioRespond 0 1 16 9 2).1,
       mkReq 16 1 0 1 :: (Strava.fetchLoop scenarioRespond 0 1 16 9 2).2) := by
  refine ⟨by decide, ?_⟩
  have h := activities_pagination.1 scenarioRespond 0 1 16 9 1 (by decide)
  rwa [if_pos (by decide)] at h

/-- C2: for every endpoint behaviour, range, page size and enrichment flag,
`activities` succeeds and returns a list sorted ascending by start time. -/
theorem activities_sorted (respond : ListRequest → List Activity)
    (zonesOf : ℤ → List ZoneData) (fuel : Nat) (b e : ℚ) (pp : Nat)
    (eh : Bool) :
    ∃ l, (Strava.activities respond zonesOf fuel b e pp eh).1 = .ok l ∧
      l.Pairwise (fun x y => x.start_datetime ≤ y.start_datetime) := by
  obtain ⟨l, h1, _, h3⟩ := activities_ok respond zonesOf fuel b e pp eh
  exact ⟨l, h1, h3⟩

/-- C6: `week_beginning ts` performs `activities` over the range from `ts`
to `ts` plus seven days, and every listing request it issues carries
`after = ts` and `before = ts + 7 days` exactly. -/
theorem week_beginning_range (respond : ListRequest → List Activity)
    (zonesOf : ℤ → List ZoneData) (fuel : Nat) (ts : ℚ) (pp : Nat)
    (eh : Bool) :
    Strava.week_beginning respond zonesOf fuel ts pp eh =
      Strava.activities respond zonesOf fuel ts (ts + 7 * 86400) pp eh ∧
    ∀ r ∈ (Strava.week_beginning respond zonesOf fuel ts pp eh).2,
      r.after = ts ∧ r.before = ts + 7 * 86400 := by
  refine ⟨rfl, ?_⟩
  intro r hr
  rw [Strava.week_beginning, activities_snd] at hr
  exact (fetchLoop_req_fields respond ts (ts + 7 * 86400) pp fuel 1 r hr).2

/-- Witness for C6: against an endpoint with no activities, `week_beginning`
issues exactly one request, and it carries the week's bounds. -/
theorem week_beginning_range_witness :
    mkReq 16 1 100 (100 + 7 * 86400) ∈
      (Strava.week_beginning emptyRespond noZones 1 100 16 true).2 ∧
    (mkReq 16 1 100 (100 + 7 * 86400)).after = 100 ∧
    (mkReq 16 1 100 (100 + 7 * 86400)).before = 100 + 7 * 86400 := by
  have hm : mkReq 16 1 100 (100 + 7 * 86400) ∈
      (Strava.week_beginning emptyRespond noZones 1 100 16 true).2 := by
    simp [Strava.week_beginning, Strava.activities, Strava.fetchLoop,
      emptyRespond, mkReq]
  exact ⟨hm, (week_beginning_range emptyRespond noZones 1 100 16 true).2 _ hm⟩

/-- C7: `ActivityType.parse` is case-insensitive and total on the two known
variants and fails on everything else: it returns RUN exactly when the
lower-cased input is "run", WORKOUT exactly when it is "workout", and raises
a `ValueError` on every other input. -/
theorem activity_type_parse_total (s : String) :
    (ActivityType.parse s = .ok ActivityType.RUN ↔ pyLower s = "run") ∧
    (ActivityType.parse s = .ok ActivityType.WORKOUT ↔ pyLower s = "workout") ∧
    (pyLower s ≠ "run" → pyLower s ≠ "workout" →
       ActivityType.parse s = .error ("unknown activity type '" ++ s ++ "'")) := by
  by_cases h1 : pyLower s = "run"
  · simp [ActivityType.parse, h1]
  · by_cases h2 : pyLower s = "workout"
    · simp [ActivityType.parse, h1, h2]
    · have herr : ActivityType.parse s =
          .error ("unknown activity type '" ++ s ++ "'") := by
        unfold ActivityType.parse
        split
        · simp_all
        · simp_all
        · rfl
      simp [herr, h1, h2]

/-- Witness for C7: "RUN" parses to RUN, "Workout" parses to WORKOUT, and
"cycling" raises a parse error. -/
theorem activity_type_parse_total_witness :
    ActivityType.parse "RUN" = .ok ActivityType.RUN ∧
    ActivityType.parse "Workout" = .ok ActivityType.WORKOUT ∧
    pyLower "cycling" ≠ "run" ∧ pyLower "cycling" ≠ "workout" ∧
    ActivityType.parse "cycling" =
      .error ("unknown activity type '" ++ "cycling" ++ "'") := by
  refine ⟨?_, ?_, by decide, by decide, ?_⟩
  · exact (activity_type_parse_total "RUN").1.mpr (by decide)
  · exact (activity_type_parse_total "Workout").2.1.mpr (by decide)
  · exact (activity_type_parse_total "cycling").2.2 (by decide) (by decide)

/-- Assigning identifiers leaves every bucket's minimum BPM unchanged, in
order. -/
theorem enumFrom_assign_map_min (l : List Heartrate) :
    ∀ n : Nat, ((List.enumFrom n l).map (fun p => { p.2 with id := zid p.1 })).map
        Heartrate.min = l.map Heartrate.min := by
  induction l with
  | nil => intro n; rfl
  | cons h t ih => intro n; simp [List.enumFrom, ih]

/-- The identifiers assigned to an enumerated list are exactly
`zid n, zid (n+1), ...` positionally. -/
theorem enumFrom_assign_map_id (l : List Heartrate) :
    ∀ n : Nat, ((List.enumFrom n l).map (fun p => { p.2 with id := zid p.1 })).map
        Heartrate.id = (List.range' n l.length).map zid := by
  induction l with
  | nil => intro n; rfl
  | cons h t ih => intro n; simp [List.enumFrom, List.range'_succ, ih]

/-- `assignIds` rewrites only the identifiers: the minima are untouched. -/
theorem assignIds_map_min (l : List Heartrate) :
    (assignIds l).map Heartrate.min = l.map Heartrate.min :=
  enumFrom_assign_map_min l 0

/-- The identifiers produced by `assignIds` are `z1..zN` positionally. -/
theorem assignIds_map_id (l : List Heartrate) :
    (assignIds l).map Heartrate.id = (List.range l.length).map zid := by
  rw [assignIds, List.enum, enumFrom_assign_map_id l 0, List.range_eq_range']

/-- `assignIds` preserves the length. -/
theorem assignIds_length (l : List Heartrate) :
    (assignIds l).length = l.length := by
  simp [assignIds]

/-- The zone list produced by `convertBuckets` is pairwise ordered by
minimum BPM. -/
theorem convertBuckets_pairwise (bs : List DistributionBucket) :
    (convertBuckets bs).Pairwise (fun x y => x.min ≤ y.min) := by
  rw [convertBuckets]
  set raw := bs.map (fun item =>
    { id := "", min := pyInt item.min, max := pyInt item.max,
      time := item.time : Heartrate }) with hraw
  have hs := @List.sorted_mergeSort Heartrate
    (fun a b => decide (a.min ≤ b.min))
    (fun a b c h1 h2 => by
      simp only [decide_eq_true_eq] at *
      exact le_trans h1 h2)
    (fun a b => by
      rcases le_total a.min b.min with h | h <;> simp [h]) raw
  have hs' : (raw.mergeSort (fun a b => decide (a.min ≤ b.min))).Pairwise
      (fun x y => x.min ≤ y.min) := hs.imp (fun hab => of_decide_eq_true hab)
  have hmap : ((assignIds (raw.mergeSort (fun a b => decide (a.min ≤ b.min)))).map
      Heartrate.min).Pairwise (· ≤ ·) := by
    rw [assignIds_map_min]
    exact List.pairwise_map.mpr hs'
  exact List.pairwise_map.mp hmap

/-- The identifiers produced by `convertBuckets` are `z1..zN` positionally. -/
theorem convertBuckets_ids (bs : List DistributionBucket) :
    (convertBuckets bs).map Heartrate.id =
      (List.range (convertBuckets bs).length).map zid := by
  rw [convertBuckets]
  rw [assignIds_map_id, assignIds_length]

/-- Folding the zone-block loop: the final zone list comes from the last
block tagged "heartrate", if any, and is otherwise untouched. -/
theorem foldl_zoneStep_data (blocks : List ZoneData) (act : Activity) :
    (blocks.foldl Strava.zoneStep act).heartrate_data =
      (match (blocks.filter (fun d => decide (d.type = "heartrate"))).getLast? with
       | none => act.heartrate_data
       | some d => convertBuckets d.distribution_buckets) := by
  induction blocks using List.reverseRecOn generalizing act with
  | nil => rfl
  | append_singleton bs d ih =>
    rw [List.foldl_append, List.foldl_cons, List.foldl_nil, List.filter_append]
    by_cases h : d.type = "heartrate"
    · have hfil : List.filter (fun x => decide (x.type = "heartrate")) [d] = [d] := by
        simp [h]
      rw [hfil, List.getLast?_concat]
      simp [Strava.zoneStep, h]
    · have hfil : List.filter (fun x => decide (x.type = "heartrate")) [d] = [] := by
        simp [h]
      rw [hfil, List.append_nil, Strava.zoneStep, if_neg h, ih]

/-- Folding the zone-block loop over blocks none of which is tagged
"heartrate" leaves the activity unchanged. -/
theorem foldl_zoneStep_no_hr (blocks : List ZoneData) (act : Activity)
    (h : ∀ d ∈ blocks, d.type ≠ "heartrate") :
    blocks.foldl Strava.zoneStep act = act := by
  induction blocks with
  | nil => rfl
  | cons d t ih =>
    rw [List.foldl_cons, Strava.zoneStep, if_neg (h d (by simp))]
    exact ih (fun x hx => h x (by simp [hx]))

/-- C3: after successful enrichment of an activity whose zone list starts
empty (as every activity built by `Activity.parse` does), the zone list is
sorted ascending by minimum BPM and its identifiers are exactly `z1..zN`,
assigned contiguously from 1 in that sorted order. -/
theorem enrich_sorted_contiguous_ids (zonesOf : ℤ → List ZoneData)
    (a a' : Activity) (h0 : a.heartrate_data = [])
    (h : Strava.enrich_activity_with_heartrate zonesOf a = .ok a') :
    a'.heartrate_data.Pairwise (fun x y => x.min ≤ y.min) ∧
    a'.heartrate_data.map Heartrate.id =
      (List.range a'.heartrate_data.length).map zid := by
  unfold Strava.enrich_activity_with_heartrate at h
  by_cases hf : a.has_heartrate = false
  · rw [if_pos hf] at h
    cases h
  · rw [if_neg hf] at h
    have hfold : (zonesOf a.id).foldl Strava.zoneStep a = a' := by
      injection h
    subst hfold
    rw [foldl_zoneStep_data]
    cases hlast : ((zonesOf a.id).filter
        (fun d => decide (d.type = "heartrate"))).getLast? with
    | none => simp [h0]
    | some d => exact ⟨convertBuckets_pairwise _, convertBuckets_ids _⟩

/-- Witness for C3: enriching `c3Act` (empty zone list, flag set) against a
"heartrate" block whose buckets arrive out of order yields a sorted,
`z1..zN`-identified zone list. -/
theorem enrich_sorted_contiguous_ids_witness :
    c3Act.heartrate_data = [] ∧
    Strava.enrich_activity_with_heartrate c3Zones c3Act = .ok c3Act' ∧
    (c3Act'.heartrate_data.Pairwise (fun x y => x.min ≤ y.min) ∧
     c3Act'.heartrate_data.map Heartrate.id =
       (List.range c3Act'.heartrate_data.length).map zid) := by
  have h2 : Strava.enrich_activity_with_heartrate c3Zones c3Act = .ok c3Act' := by
    simp [Strava.enrich_activity_with_heartrate, c3Zones, c3Act, c3Act',
      Strava.zoneStep]
  exact ⟨rfl, h2, enrich_sorted_contiguous_ids c3Zones c3Act c3Act' rfl h2⟩

/-- C8: enriching an activity whose `has_heartrate` flag is false raises the
`ValueError` (explicit rejection); the orchestrating fetch path's
per-activity step passes such activities through unchanged, and invokes the
enricher exactly on activities whose flag is true. -/
theorem enrich_requires_flag (zonesOf : ℤ → List ZoneData) (a : Activity) :
    (a.has_heartrate = false →
       Strava.enrich_activity_with_heartrate zonesOf a =
         .error "activity does not provide heartrate data" ∧
       Strava.enrichStep zonesOf a = .ok a) ∧
    (a.has_heartrate = true →
       Strava.enrichStep zonesOf a =
         Strava.enrich_activity_with_heartrate zonesOf a) := by
  constructor
  · intro hf
    constructor
    · rw [Strava.enrich_activity_with_heartrate, if_pos hf]
    · rw [Strava.enrichStep, hf]
      rfl
  · intro ht
    rw [Strava.enrichStep, ht]
    rfl

/-- Witness for C8: `c8Act` has its flag false; direct enrichment raises,
the orchestrating step passes it through. -/
theorem enrich_requires_flag_witness :
    c8Act.has_heartrate = false ∧
    Strava.enrich_activity_with_heartrate noZones c8Act =
      .error "activity does not provide heartrate data" ∧
    Strava.enrichStep noZones c8Act = .ok c8Act := by
  refine ⟨rfl, ?_, ?_⟩
  · exact ((enrich_requires_flag noZones c8Act).1 rfl).1
  · exact ((enrich_requires_flag noZones c8Act).1 rfl).2

/-- C9: enriching a heart-rate-capable activity whose zone response holds no
"heartrate" block (other tags may be present and are ignored) raises no
error and leaves the zone list empty. -/
theorem enrich_no_heartrate_block (zonesOf : ℤ → List ZoneData) (a : Activity)
    (h1 : a.has_heartrate = true)
    (h2 : ∀ d ∈ zonesOf a.id, d.type ≠ "heartrate")
    (h0 : a.heartrate_data = []) :
    ∃ a', Strava.enrich_activity_with_heartrate zonesOf a = .ok a' ∧
      a'.heartrate_data = [] := by
  refine ⟨a, ?_, h0⟩
  rw [Strava.enrich_activity_with_heartrate, if_neg (by simp [h1])]
  rw [foldl_zoneStep_no_hr (zonesOf a.id) a h2]

/-- Witness for C9: enriching `c9Act` against a response holding only a
"power" block succeeds and leaves the zone list empty. -/
theorem enrich_no_heartrate_block_witness :
    c9Act.has_heartrate = true ∧
    (∀ d ∈ c9Zones c9Act.id, d.type ≠ "heartrate") ∧
    c9Act.heartrate_data = [] ∧
    (∃ a', Strava.enrich_activity_with_heartrate c9Zones c9Act = .ok a' ∧
       a'.heartrate_data = []) := by
  refine ⟨rfl, by decide, rfl, ?_⟩
  exact enrich_no_heartrate_block c9Zones c9Act rfl (by decide) rfl

/-- C10: when the zone response holds several "heartrate" blocks, each one
overwrites the zone list in response order, so the activity ends up carrying
exactly the converted buckets of the last such block. -/
theorem enrich_last_block_wins (zonesOf : ℤ → List ZoneData) (a : Activity)
    (L : ZoneData) (h1 : a.has_heartrate = true)
    (h2 : ((zonesOf a.id).filter
        (fun d => decide (d.type = "heartrate"))).getLast? = some L) :
    ∃ a', Strava.enrich_activity_with_heartrate zonesOf a = .ok a' ∧
      a'.heartrate_data = convertBuckets L.distribution_buckets := by
  refine ⟨(zonesOf a.id).foldl Strava.zoneStep a, ?_, ?_⟩
  · rw [Strava.enrich_activity_with_heartrate, if_neg (by simp [h1])]
  · rw [foldl_zoneStep_data, h2]

/-- Witness for C10: against two "heartrate" blocks, enrichment keeps only
the second block's converted buckets; the first block's are discarded. -/
theorem enrich_last_block_wins_witness :
    c10Act.has_heartrate = true ∧
    ((c10Zones c10Act.id).filter
        (fun d => decide (d.type = "heartrate"))).getLast? = some c10B2 ∧
    (∃ a', Strava.enrich_activity_with_heartrate c10Zones c10Act = .ok a' ∧
       a'.heartrate_data = convertBuckets c10B2.distribution_buckets) ∧
    c10B2.distribution_buckets ≠ c10B1.distribution_buckets := by
  refine ⟨rfl, by decide, ?_, by decide⟩
  exact enrich_last_block_wins c10Zones c10Act c10B2 rfl (by decide)

/-- Folding addition of a per-element quantity equals the starting value plus
the sum of the mapped list. -/
theorem foldl_add_map_sum (f : Activity → ℚ) (l : List Activity) :
    ∀ s : ℚ, l.foldl (fun acc a => acc + f a) s = s + (l.map f).sum := by
  induction l with
  | nil => intro s; simp
  | cons a t ih => intro s; simp [ih, add_assoc]

/-- Counterexample to C4: a single zone record of 600 seconds contributes
10 minutes, i.e. its total seconds divided by 60 — not its sub-minute
remainder (which would be 0 minutes).  Times below one day are not
undercounted. -/
theorem aggregate_hr_not_subminute :
    aggregate_hr [c4Act] "z1" = some 10 ∧
    (600 : ℚ) / 60 = 10 ∧
    ((600 % 60 : ℤ) : ℚ) / 60 = 0 ∧
    (10 : ℚ) ≠ 0 := by
  have hsec : timedeltaSeconds 600 = 600 := by
    rw [timedeltaSeconds_eq]
    norm_num
  refine ⟨?_, by norm_num, by norm_num, by norm_num⟩
  simp [aggregate_hr, c4Act, hsec]
  norm_num

/-- C4 as amended: `aggregate_hr` converts each zone contribution to minutes
from the `.seconds` component of its time-in-zone, which is the floor of the
total seconds modulo one day (86400 s).  Durations below one day contribute
their (floored) total seconds divided by 60 — no undercount — while a
time-in-zone of a day or more is undercounted relative to total seconds
divided by 60. -/
theorem aggregate_hr_subday_seconds (a : Activity) (hr : Heartrate)
    (h : a.heartrate_data = [hr]) :
    aggregate_hr [a] hr.id = some ((timedeltaSeconds hr.time : ℚ) / 60) ∧
    (0 ≤ hr.time → hr.time < 86400 →
       (timedeltaSeconds hr.time : ℚ) / 60 = ((⌊hr.time⌋ : ℤ) : ℚ) / 60) ∧
    ((86400 : ℚ) ≤ hr.time →
       (timedeltaSeconds hr.time : ℚ) / 60 < hr.time / 60) := by
  refine ⟨?_, ?_, ?_⟩
  · simp [aggregate_hr, h]
  · intro h1 h2
    rw [timedeltaSeconds_of_lt_day hr.time h1 h2]
  · intro hday
    have hlt : (timedeltaSeconds hr.time : ℚ) < hr.time := by
      have := timedeltaSeconds_lt_day hr.time
      calc (timedeltaSeconds hr.time : ℚ) < 86400 := by exact_mod_cast this
        _ ≤ hr.time := hday
    gcongr

/-- Witness for C4 (amended): a 90000-second zone record contributes
`(90000 mod 86400) / 60 = 60` minutes, strictly less than `90000 / 60`. -/
theorem aggregate_hr_subday_seconds_witness :
    c4wAct.heartrate_data = [c4wHr] ∧
    aggregate_hr [c4wAct] c4wHr.id =
      some ((timedeltaSeconds c4wHr.time : ℚ) / 60) ∧
    (timedeltaSeconds c4wHr.time : ℚ) / 60 < c4wHr.time / 60 := by
  refine ⟨rfl, (aggregate_hr_subday_seconds c4wAct c4wHr rfl).1, ?_⟩
  exact (aggregate_hr_subday_seconds c4wAct c4wHr rfl).2.2 (by decide)

/-- Counterexample to C5: an activity lasting exactly one day contributes
0 hours, not the 24 hours its duration truncated to whole seconds would
give. -/
theorem total_duration_drops_full_days :
    total_duration [c5Act] = 0 ∧
    ((⌊c5Act.duration⌋ : ℤ) : ℚ) / 3600 = 24 ∧
    (0 : ℚ) ≠ 24 := by
  have hsec : timedeltaSeconds 86400 = 0 := by
    rw [timedeltaSeconds_eq]
    norm_num
  refine ⟨?_, ?_, by norm_num⟩
  · simp [total_duration, c5Act, hsec]
  · show ((⌊(86400 : ℚ)⌋ : ℤ) : ℚ) / 3600 = 24
    norm_num

/-- C5 as amended: `total_duration` sums each duration's `.seconds`
component (the floored total seconds modulo one day) and divides by 3600;
on the empty list it returns 0, and whenever every duration is shorter than
one day it equals the sum of the whole-second-truncated durations divided by
3600.  Durations of a day or more have their whole days dropped. -/
theorem total_duration_subday (l : List Activity) :
    total_duration [] = 0 ∧
    total_duration l =
      (l.map (fun a => (timedeltaSeconds a.duration : ℚ))).sum / 3600 ∧
    ((∀ a ∈ l, 0 ≤ a.duration ∧ a.duration < 86400) →
       total_duration l =
         (l.map (fun a => ((⌊a.duration⌋ : ℤ) : ℚ))).sum / 3600) := by
  have hfold : total_duration l =
      (l.map (fun a => (timedeltaSeconds a.duration : ℚ))).sum / 3600 := by
    rw [total_duration, foldl_add_map_sum]
    norm_num
  refine ⟨by simp [total_duration], hfold, ?_⟩
  intro hb
  have hmap : l.map (fun a => (timedeltaSeconds a.duration : ℚ)) =
      l.map (fun a => ((⌊a.duration⌋ : ℤ) : ℚ)) := by
    apply List.map_congr_left
    intro a ha
    rw [timedeltaSeconds_of_lt_day a.duration (hb a ha).1 (hb a ha).2]
  rw [hfold, hmap]

/-- Witness for C5 (amended): a 3661-second activity is below one day, and
its total duration is its floored seconds divided by 3600. -/
theorem total_duration_subday_witness :
    (∀ a ∈ [c5wAct], 0 ≤ a.duration ∧ a.duration < 86400) ∧
    total_duration [c5wAct] =
      ([c5wAct].map (fun a => ((⌊a.duration⌋ : ℤ) : ℚ))).sum / 3600 :=
  ⟨by decide, (total_duration_subday [c5wAct]).2.2 (by decide)⟩
